import Mathlib

/-!
Shallow embedding of the ProdCast worker repository:
`core/models.py` (Django ORM models, their `save`/`clean` hooks and the
`pre_save` signal) and `core/tasks.py` (the `run_scenario` Celery task).

Modelling conventions:
* each Django model is a Lean structure holding the persisted columns;
  primary and foreign keys are `Nat` ids (`Option Nat` for nullable FKs);
* the database is a record of lists of rows, in table order;
* `DateTimeField` values are model-time ticks (`Nat`); the worker state
  carries a `clock` that `timezone.now()` reads and `time.sleep(5)`
  advances by 5;
* `DecimalField` columns are carried as `Int` (fixed-point digits); no
  claim performs decimal arithmetic;
* a raised Python exception is an `Except.error` / `Option.none` result;
  operations that can partially mutate state before raising return the
  state reached so far together with the error.
-/

/-- `UnitSystem` model (models.py). -/
structure UnitSystem where
  unit_system_id : Nat
  unit_system_name : String
  created_date : Nat
  modified_date : Nat
  created_by : Option Int
  modified_by : Option Int
  deriving Repr, DecidableEq

/-- `UnitType` model (models.py). -/
structure UnitType where
  unit_type_id : Nat
  unit_type_name : String
  created_date : Nat
  modified_date : Nat
  created_by : Option Int
  modified_by : Option Int
  deriving Repr, DecidableEq

/-- `UnitDefinition` model (models.py); `unit_type` is a PROTECT FK to
`UnitType`.  Meta ordering is `["unit_definition_name"]`. -/
structure UnitDefinition where
  unit_definition_id : Nat
  unit_definition_name : String
  unit_type : Nat
  scale_factor : Int
  offset : Int
  is_base : Bool
  alias_text : Option String
  precision : Int
  created_date : Nat
  modified_date : Nat
  created_by : Option Int
  modified_by : Option Int
  calculation_method : Option Int
  deriving Repr, DecidableEq

/-- `UnitCategory` model (models.py); `unit_type` is a PROTECT FK. -/
structure UnitCategory where
  unit_category_id : Nat
  unit_type : Nat
  unit_category_name : String
  created_date : Nat
  modified_date : Nat
  created_by : Option Int
  modified_by : Option Int
  deriving Repr, DecidableEq

/-- `UnitSystemCategoryDefinition` model (models.py). -/
structure UnitSystemCategoryDefinition where
  unit_system_category_definition_id : Nat
  unit_system : Nat
  unit_category : Nat
  unit_definition : Nat
  created_date : Nat
  modified_date : Nat
  created_by : Option Int
  modified_by : Option Int
  deriving Repr, DecidableEq

/-- `DataSource` model (models.py). -/
structure DataSource where
  id : Nat
  data_source_name : String
  deriving Repr, DecidableEq

/-- `ScenarioComponent` model (models.py); `data_source` is a PROTECT FK,
`file` is the stored path of the optional `FileField`. -/
structure ScenarioComponent where
  id : Nat
  name : String
  description : String
  data_source : Nat
  created_by : Option Nat
  created_date : Nat
  last_updated : Option Nat
  file : Option String
  deriving Repr, DecidableEq

/-- `ServersClass` model (models.py). -/
structure ServersClass where
  server_id : Nat
  server_name : String
  server_url : String
  server_status : String
  description : String
  created_by : Option Nat
  created_date : Nat
  is_active : Bool
  deriving Repr, DecidableEq

/-- `ScenarioClass` model (models.py); `server` is a nullable SET_NULL FK to
`ServersClass`. -/
structure ScenarioClass where
  scenario_id : Nat
  scenario_name : String
  description : String
  status : String
  start_date : Option Nat
  end_date : Option Nat
  task_id : Option String
  server : Option Nat
  is_approved : Bool
  created_by : Option Nat
  created_date : Nat
  deriving Repr, DecidableEq

/-- `ScenarioLog` model (models.py); `scenario` is a CASCADE FK,
`timestamp` defaults to `timezone.now`. -/
structure ScenarioLog where
  scenario : Nat
  timestamp : Nat
  message : String
  progress : Nat
  deriving Repr, DecidableEq

/-- `ScenarioComponentLink` model (models.py); both FKs CASCADE. -/
structure ScenarioComponentLink where
  id : Nat
  scenario : Nat
  component : Nat
  deriving Repr, DecidableEq

/-- `ObjectType` model (models.py). -/
structure ObjectType where
  object_type_id : Nat
  object_type_name : String
  deriving Repr, DecidableEq

/-- `ObjectInstance` model (models.py); `object_type` is a CASCADE FK. -/
structure ObjectInstance where
  object_instance_id : Nat
  object_type : Nat
  object_instance_name : String
  deriving Repr, DecidableEq

/-- `ObjectTypeProperty` model (models.py); `unit_category` and `unit` are
nullable SET_NULL FKs, `unit` is auto-set by `save`. -/
structure ObjectTypeProperty where
  object_type_property_id : Nat
  object_type : Nat
  object_type_property_name : String
  object_type_property_category : String
  tag : Option String
  openserver : Option String
  unit_category : Option Nat
  unit : Option Nat
  deriving Repr, DecidableEq

/-- `MainClass` model (models.py). -/
structure MainClass where
  data_set_id : Nat
  data_source_name : Nat
  data_source_id : Int
  object_type : Nat
  object_instance : Nat
  object_type_property : Nat
  value : Option Int
  date_time : Option Nat
  sub_data_source : Option String
  description : Option String
  deriving Repr, DecidableEq

/-- The persistent store: one list of rows per model table, plus the model
clock that stands for `timezone.now()` (advanced by `time.sleep`). -/
structure DB where
  unit_systems : List UnitSystem
  unit_types : List UnitType
  unit_definitions : List UnitDefinition
  unit_categories : List UnitCategory
  unit_system_category_definitions : List UnitSystemCategoryDefinition
  data_sources : List DataSource
  scenario_components : List ScenarioComponent
  servers : List ServersClass
  scenarios : List ScenarioClass
  scenario_logs : List ScenarioLog
  scenario_component_links : List ScenarioComponentLink
  object_types : List ObjectType
  object_instances : List ObjectInstance
  object_type_properties : List ObjectTypeProperty
  main_rows : List MainClass
  clock : Nat
  deriving Repr, DecidableEq

/-- A Django `Model.save()` on a row with primary key `f x`: rows already
carrying that key are overwritten (SQL UPDATE), otherwise the row is
appended (SQL INSERT). -/
def upsertBy (f : α → Nat) (xs : List α) (x : α) : List α :=
  if xs.any (fun y => f y == f x) then
    xs.map (fun y => if f y == f x then x else y)
  else xs ++ [x]

/-- Stable insertion of a `UnitDefinition` into a list sorted by
`unit_definition_name`. -/
def insertByName (d : UnitDefinition) : List UnitDefinition → List UnitDefinition
  | [] => [d]
  | e :: es =>
    if d.unit_definition_name ≤ e.unit_definition_name then d :: e :: es
    else e :: insertByName d es

/-- Stable sort by `unit_definition_name`: the `ORDER BY` that
the Meta `ordering = ["unit_definition_name"]` of `UnitDefinition` applies to
every `UnitDefinition` queryset. -/
def sortByName : List UnitDefinition → List UnitDefinition
  | [] => []
  | d :: ds => insertByName d (sortByName ds)

/-- `UnitDefinition.objects.filter(unit_type=t, is_base=True).first()`
(models.py, `ObjectTypeProperty.save`): the first row of the filtered
queryset under the name ordering of the model, or `none` when empty. -/
def firstBaseUnit (db : DB) (t : Nat) : Option UnitDefinition :=
  (sortByName (db.unit_definitions.filter
    (fun d => d.unit_type == t && d.is_base))).head?

/-- `ObjectTypeProperty.save` (models.py lines 316-326): resolve the `unit`
field from `unit_category` (the base unit of the unit type of the category, or
null), then persist.  Returns `none` when the stored `unit_category` id has
no row (the Python attribute access `self.unit_category.unit_type` would
raise), leaving the table untouched. -/
def saveObjectTypeProperty (db : DB) (p : ObjectTypeProperty) : Option DB :=
  match p.unit_category with
  | none =>
    let rows := upsertBy (fun r => r.object_type_property_id)
      db.object_type_properties { p with unit := none }
    some { db with object_type_properties := rows }
  | some cid =>
    match db.unit_categories.find? (fun c => c.unit_category_id == cid) with
    | none => none
    | some cat =>
      let u := (firstBaseUnit db cat.unit_type).map (fun d => d.unit_definition_id)
      let rows := upsertBy (fun r => r.object_type_property_id)
        db.object_type_properties { p with unit := u }
      some { db with object_type_properties := rows }

/-- `self.component.data_source` seen through the link table: the data
source id of the component row a link references, when that row exists. -/
def componentDataSource (db : DB) (cid : Nat) : Option Nat :=
  (db.scenario_components.find? (fun c => c.id == cid)).map
    (fun c => c.data_source)

/-- `ScenarioComponentLink.clean` (models.py lines 257-268): raise a
`ValidationError` when another link of the same scenario (excluding
`pk=self.pk`) references a component with the same data source.  The
queryset join `component__data_source` only sees links whose component row
exists.  Faults when the component row of the link itself is missing (the Python
attribute access would raise). -/
def cleanScenarioComponentLink (db : DB) (l : ScenarioComponentLink) :
    Except String Unit :=
  match componentDataSource db l.component with
  | none => Except.error "RelatedObjectDoesNotExist"
  | some ds =>
    if db.scenario_component_links.any (fun o =>
        o.scenario == l.scenario
          && componentDataSource db o.component == some ds
          && o.id != l.id) then
      Except.error "ValidationError: a component with this data source already exists for this scenario"
    else Except.ok ()

/-- `ScenarioComponentLink.save` (models.py lines 270-272): `full_clean`
runs `clean` before the write; on a `ValidationError` nothing is
persisted.  (The uniqueness validation of `(scenario,
component)` can only fire when `clean` already raised: a duplicate
component implies a duplicate data source.) -/
def saveScenarioComponentLink (db : DB) (l : ScenarioComponentLink) :
    Except String DB :=
  match cleanScenarioComponentLink db l with
  | Except.error e => Except.error e
  | Except.ok _ =>
    let rows := upsertBy (fun r => r.id) db.scenario_component_links l
    Except.ok { db with scenario_component_links := rows }

/-- The invariant behind claim C3: two links of the same scenario whose
components share a data source are the same row. -/
def linkConflictFree (db : DB) : Prop :=
  ∀ o1 ∈ db.scenario_component_links, ∀ o2 ∈ db.scenario_component_links,
    o1.scenario = o2.scenario →
    componentDataSource db o1.component = componentDataSource db o2.component →
    o1.id = o2.id

/-- `validate_object_instance` (models.py lines 374-377), the `pre_save`
receiver for `MainClass`: raise a `ValidationError` when the referenced
instance has an object type differing from the `object_type` of the row.  Faults
when the `object_instance` id has no row (the attribute access would
raise). -/
def validate_object_instance (db : DB) (m : MainClass) : Except String Unit :=
  match db.object_instances.find?
      (fun i => i.object_instance_id == m.object_instance) with
  | none => Except.error "RelatedObjectDoesNotExist"
  | some inst =>
    if inst.object_type != m.object_type then
      Except.error "Object instance must belong to the selected object type."
    else Except.ok ()

/-- `MainClass` save: Django fires the `pre_save` signal before the row is
written, so a `ValidationError` from `validate_object_instance` aborts the
save with the table untouched. -/
def saveMainClass (db : DB) (m : MainClass) : Except String DB :=
  match validate_object_instance db m with
  | Except.error e => Except.error e
  | Except.ok _ =>
    Except.ok { db with main_rows := upsertBy (fun r => r.data_set_id) db.main_rows m }

/-- Delete of a `UnitType` row.  Both `UnitDefinition.unit_type` and
`UnitCategory.unit_type` are declared `on_delete=models.PROTECT`
(models.py lines 60 and 89): the delete collector raises `ProtectedError`
while any dependent row exists, leaving the database untouched; otherwise
the row is removed. -/
def deleteUnitType (db : DB) (t : Nat) : Except String DB :=
  if db.unit_definitions.any (fun d => d.unit_type == t)
      || db.unit_categories.any (fun c => c.unit_type == t) then
    Except.error "ProtectedError"
  else
    Except.ok { db with unit_types :=
      db.unit_types.filter (fun u => u.unit_type_id != t) }

/-- The database reached by a delete attempt: unchanged when the delete
raised. -/
def dbAfterDeleteUnitType (db : DB) (t : Nat) : DB :=
  match deleteUnitType db t with
  | Except.error _ => db
  | Except.ok db2 => db2

/-- `ServersClass.objects` (models.py `ActiveManager.get_queryset`): the
default listing filters to `is_active=True`. -/
def activeServers (db : DB) : List ServersClass :=
  db.servers.filter (fun s => s.is_active)

/-- `ServersClass.all_objects`: the unfiltered listing. -/
def allServers (db : DB) : List ServersClass := db.servers

/-- `ServersClass.deactivate` (models.py lines 188-190): set
`is_active=False` on the row with this primary key and save. -/
def deactivateServer (db : DB) (sid : Nat) : DB :=
  { db with servers := db.servers.map (fun s =>
      if s.server_id == sid then { s with is_active := false } else s) }

/-- `ServersClass.activate` (models.py lines 192-194): set
`is_active=True` on the row with this primary key and save. -/
def activateServer (db : DB) (sid : Nat) : DB :=
  { db with servers := db.servers.map (fun s =>
      if s.server_id == sid then { s with is_active := true } else s) }

/-- The value returned by `run_scenario` (tasks.py line 46). -/
structure TaskResult where
  status : String
  scenario_id : Nat
  deriving Repr, DecidableEq

/-- `ScenarioClass` save on an already-loaded row: UPDATE of the row with
this primary key. -/
def scenarioSave (rows : List ScenarioClass) (s : ScenarioClass) :
    List ScenarioClass :=
  rows.map (fun r => if r.scenario_id == s.scenario_id then s else r)

/-- `ScenarioLog.objects.create(...)`: append a log row.  A `create` call
without an explicit `timestamp` uses the field default `timezone.now`, so
every row here carries the current clock. -/
def createLog (db : DB) (sid : Nat) (msg : String) (prog : Nat) : DB :=
  { db with scenario_logs := db.scenario_logs ++ [⟨sid, db.clock, msg, prog⟩] }

/-- `range(0, 101, 10)` (tasks.py line 23). -/
def progressSteps : List Nat := [0, 10, 20, 30, 40, 50, 60, 70, 80, 90, 100]

/-- The f-string `f"Progress: {i}%"` (tasks.py line 29). -/
def progressMsg (i : Nat) : String := "Progress: " ++ toString i ++ "%"

/-- The loop of tasks.py lines 23-32: for each `i` in `range(0, 101, 10)`,
`time.sleep(5)` (the clock advances by 5), then a progress log row is
created.  `self.update_state(...)` publishes progress out of band and
touches no persistent table, so it has no footprint here. -/
def progressLoop (sid : Nat) (db : DB) : DB :=
  progressSteps.foldl (fun db i =>
    createLog { db with clock := db.clock + 5 } sid (progressMsg i) i) db

/-- Lines 11-15 of tasks.py: load the scenario, set `status="STARTED"` and
`start_date=now` on the loaded object, and save it.  The statement
`scenario.server.server_name = self.request.hostname` only mutates the
related `ServersClass` object in worker memory: that object is never
saved, so the assignment leaves no trace in the store, and it raises
`AttributeError` when `scenario.server` is null (`None` has no attribute),
before anything was saved.  A missing scenario id raises `DoesNotExist`
from `objects.get`.  The pair returned is the store after this phase and
either the in-memory scenario object or the raised error. -/
def runStart (hostname : String) (sid : Nat) (db : DB) :
    DB × Except String ScenarioClass :=
  match db.scenarios.find? (fun r => r.scenario_id == sid) with
  | none => (db, Except.error "ScenarioClass.DoesNotExist")
  | some sc0 =>
    let sc1 := { sc0 with status := "STARTED" }
    match sc1.server with
    | none =>
      (db, Except.error "AttributeError: NoneType object has no attribute server_name")
    | some _ =>
      let _hostnameOnInMemoryServerObject := hostname
      let sc2 := { sc1 with start_date := some db.clock }
      ({ db with scenarios := scenarioSave db.scenarios sc2 }, Except.ok sc2)

/-- `run_scenario` (tasks.py lines 8-46), as a function from the store to
the store plus the outcome of the task: the start phase, the initial
`progress=0` log, the progress loop, the finishing save
(`status="SUCCESS"`, `end_date=now`, description from the two date
strings), the final `progress=100` log, and the returned dict. -/
def run_scenario (hostname : String) (sid : Nat)
    (start_date end_date : String) (db : DB) :
    DB × Except String TaskResult :=
  match runStart hostname sid db with
  | (db1, Except.error e) => (db1, Except.error e)
  | (db1, Except.ok sc) =>
    let db2 := createLog db1 sid "Task started" 0
    let db3 := progressLoop sid db2
    let sc2 := { sc with
      status := "SUCCESS"
      end_date := some db3.clock
      description := "Calculated from " ++ start_date ++ " to " ++ end_date }
    let db4 := { db3 with scenarios := scenarioSave db3.scenarios sc2 }
    let db5 := createLog db4 sid "Task finished" 100
    (db5, Except.ok { status := "SUCCESS", scenario_id := sid })

/-- The thirteen log rows appended by a completed run that starts at clock
`t`: the initial row, one row per loop value (written at clock `t + 5k`
after the k-th sleep), and the final row. -/
def runLogs (sid t : Nat) : List ScenarioLog :=
  [⟨sid, t, "Task started", 0⟩,
   ⟨sid, t + 5, progressMsg 0, 0⟩,
   ⟨sid, t + 10, progressMsg 10, 10⟩,
   ⟨sid, t + 15, progressMsg 20, 20⟩,
   ⟨sid, t + 20, progressMsg 30, 30⟩,
   ⟨sid, t + 25, progressMsg 40, 40⟩,
   ⟨sid, t + 30, progressMsg 50, 50⟩,
   ⟨sid, t + 35, progressMsg 60, 60⟩,
   ⟨sid, t + 40, progressMsg 70, 70⟩,
   ⟨sid, t + 45, progressMsg 80, 80⟩,
   ⟨sid, t + 50, progressMsg 90, 90⟩,
   ⟨sid, t + 55, progressMsg 100, 100⟩,
   ⟨sid, t + 55, "Task finished", 100⟩]

/-- The scenario row as persisted by the finishing save of a run that
started at clock `t`: relative to the loaded row, exactly `status`,
`start_date`, `end_date` and `description` are rewritten. -/
def finalScenarioRow (s : ScenarioClass) (t : Nat) (sd ed : String) : ScenarioClass :=
  { s with
    status := "SUCCESS"
    start_date := some t
    end_date := some (t + 55)
    description := "Calculated from " ++ sd ++ " to " ++ ed }

/-- The scenario row as persisted by the first save of the task (lines
12-15 of tasks.py): relative to the loaded row, exactly `status` and
`start_date` are rewritten. -/
def startedRow (s : ScenarioClass) (t : Nat) : ScenarioClass :=
  { s with status := "STARTED", start_date := some t }

/-- Example rows used to evaluate the development on concrete data. -/
def exampleServer : ServersClass :=
  ⟨1, "Server 1", "http://server-1", "ok", "", none, 0, true⟩

/-- A pending scenario assigned to server 1. -/
def exampleScenario : ScenarioClass :=
  ⟨1, "S1", "", "PENDING", none, none, none, some 1, false, none, 0⟩

/-- A pending scenario whose server reference is null. -/
def exampleScenarioNoServer : ScenarioClass :=
  ⟨2, "S2", "", "PENDING", none, none, none, none, false, none, 0⟩

/-- A small concrete store: one unit type with a base and a non-base
definition and one category, two data sources, three components (two of
them sharing data source 1), one server, two scenarios, one existing link,
two object types and one instance of type 1. -/
def exampleDB : DB where
  unit_systems := []
  unit_types := [⟨1, "Length", 0, 0, none, none⟩]
  unit_definitions :=
    [⟨1, "metre", 1, 1, 0, true, none, 3, 0, 0, none, none, none⟩,
     ⟨2, "foot", 1, 3, 0, false, none, 2, 0, 0, none, none, none⟩]
  unit_categories := [⟨1, 1, "Distance", 0, 0, none, none⟩]
  unit_system_category_definitions := []
  data_sources := [⟨1, "GAP"⟩, ⟨2, "PROSPER"⟩]
  scenario_components :=
    [⟨1, "ModelA", "", 1, none, 0, none, none⟩,
     ⟨2, "ModelB", "", 1, none, 0, none, none⟩,
     ⟨3, "ModelC", "", 2, none, 0, none, none⟩]
  servers := [exampleServer]
  scenarios := [exampleScenario, exampleScenarioNoServer]
  scenario_logs := []
  scenario_component_links := [⟨1, 1, 1⟩]
  object_types := [⟨1, "WELL"⟩, ⟨2, "PIPE"⟩]
  object_instances := [⟨1, 1, "W-001"⟩]
  object_type_properties := []
  main_rows := []
  clock := 0

/-- The property row used in the concrete evaluation of claim C2. -/
def exampleProperty : ObjectTypeProperty :=
  ⟨1, 1, "OilRate", "Rates", none, none, some 1, none⟩

/-- The store obtained by saving `exampleProperty` into `exampleDB`: the
resolved unit is definition 1 (metre), the base definition of unit type
1 (Length). -/
def exampleSavedDB : DB :=
  { exampleDB with object_type_properties := upsertBy (fun r => r.object_type_property_id) exampleDB.object_type_properties { exampleProperty with unit := some 1 } }

set_option maxHeartbeats 1000000

/-- Saving the row that was just saved changes nothing: the key is already
present, and overwriting with the same row is the identity. -/
theorem upsertBy_idem (f : α → Nat) (xs : List α) (x : α) :
    upsertBy f (upsertBy f xs x) x = upsertBy f xs x := by
  unfold upsertBy
  by_cases h : xs.any (fun y => f y == f x) = true
  · rw [if_pos h]
    have h2 : ((xs.map (fun y => if f y == f x then x else y)).any
        (fun y => f y == f x)) = true := by
      rw [List.any_eq_true] at h ⊢
      obtain ⟨y, hy, hfy⟩ := h
      refine ⟨x, List.mem_map.mpr ⟨y, hy, ?_⟩, by simp⟩
      rw [if_pos hfy]
    rw [if_pos h2, List.map_map]
    apply List.map_congr_left
    intro y _
    simp only [Function.comp]
    by_cases hy : (f y == f x) = true
    · simp [hy]
    · simp [hy]
  · rw [if_neg h]
    have h2 : ((xs ++ [x]).any (fun y => f y == f x)) = true := by
      rw [List.any_eq_true]
      exact ⟨x, List.mem_append_right xs (List.mem_singleton.mpr rfl), by simp⟩
    rw [if_pos h2, List.map_append]
    have h3 : xs.map (fun y => if f y == f x then x else y) = xs := by
      conv_rhs => rw [← List.map_id xs]
      apply List.map_congr_left
      intro y hy
      rw [if_neg (fun hfy => h (List.any_eq_true.mpr ⟨y, hy, hfy⟩))]
      rfl
    rw [h3]
    simp

/-- A member of a saved table is the saved row or an old row with a
different key. -/
theorem mem_upsertBy {f : α → Nat} {xs : List α} {x y : α}
    (hy : y ∈ upsertBy f xs x) : y = x ∨ (y ∈ xs ∧ ¬ f y = f x) := by
  unfold upsertBy at hy
  by_cases h : xs.any (fun z => f z == f x) = true
  · rw [if_pos h] at hy
    obtain ⟨z, hz, hzy⟩ := List.mem_map.mp hy
    by_cases hzx : (f z == f x) = true
    · rw [if_pos hzx] at hzy
      exact Or.inl hzy.symm
    · rw [if_neg hzx] at hzy
      subst hzy
      exact Or.inr ⟨hz, by simpa using hzx⟩
  · rw [if_neg h] at hy
    rcases List.mem_append.mp hy with h1 | h2
    · refine Or.inr ⟨h1, ?_⟩
      intro hfe
      exact h (List.any_eq_true.mpr ⟨y, h1, by simp [hfe]⟩)
    · exact Or.inl (List.mem_singleton.mp h2)

/-- `componentDataSource` only reads the components table, so rewriting
the link table does not change it. -/
theorem componentDataSource_update_links (db : DB)
    (rows : List ScenarioComponentLink) (c : Nat) :
    componentDataSource { db with scenario_component_links := rows } c
      = componentDataSource db c := rfl

/-- Two saves of rows sharing a primary key collapse to the second. -/
theorem scenarioSave_scenarioSave (xs : List ScenarioClass) (a b : ScenarioClass)
    (h : a.scenario_id = b.scenario_id) :
    scenarioSave (scenarioSave xs a) b = scenarioSave xs b := by
  unfold scenarioSave
  rw [List.map_map]
  apply List.map_congr_left
  intro r _
  simp only [Function.comp]
  by_cases hr : r.scenario_id = a.scenario_id
  · simp [hr, h]
  · simp [hr, h ▸ hr]

/-- Full characterisation of a run on an existing scenario with an
assigned server: the scenarios table receives the finishing save, the log
table is extended by the thirteen rows of `runLogs`, eleven sleeps of five
ticks advance the clock, every other table is untouched, and the task
returns the SUCCESS record. -/
theorem run_scenario_ok (hostname sd ed : String) (sid : Nat) (db : DB)
    (s : ScenarioClass)
    (hfind : db.scenarios.find? (fun r => r.scenario_id == sid) = some s)
    (v : Nat) (hsrv : s.server = some v) :
    run_scenario hostname sid sd ed db =
      ({ db with
          scenarios := scenarioSave db.scenarios (finalScenarioRow s db.clock sd ed)
          scenario_logs := db.scenario_logs ++ runLogs sid db.clock
          clock := db.clock + 55 },
       Except.ok { status := "SUCCESS", scenario_id := sid }) := by
  unfold run_scenario runStart
  rw [hfind]
  simp only []
  rw [show ({ s with status := "STARTED" } : ScenarioClass).server = some v from hsrv]
  simp only [progressLoop, progressSteps, createLog, List.foldl]
  rw [scenarioSave_scenarioSave _ _ _ (by rfl)]
  simp [runLogs, finalScenarioRow, List.append_assoc, Nat.add_assoc]
  rw [hsrv]

/-- Claim C1, counterexample: running the task to completion on scenario 1
of `exampleDB` (which exists and has an assigned server) creates 13 log
rows, not 12, and the progress values 0 and 100 are duplicated, so the
progress list is not duplicate-free. -/
theorem claim_C1_counterexample :
    (run_scenario "worker-1" 1 "2024-01-01" "2024-01-31" exampleDB).1.scenario_logs.length = 13
      ∧ ¬ (run_scenario "worker-1" 1 "2024-01-01" "2024-01-31" exampleDB).1.scenario_logs.length = 12
      ∧ ¬ ((run_scenario "worker-1" 1 "2024-01-01" "2024-01-31"
            exampleDB).1.scenario_logs.map (fun l => l.progress)).Nodup := by
  decide

/-- Claim C1 as amended: running `run_scenario` to completion on an
existing scenario with an assigned server creates exactly 13 `ScenarioLog`
rows for that scenario, with progress values 0,0,10,20,...,90,100,100: the
values 10..90 occur once each, while 0 and 100 occur twice (the initial
row duplicates the first loop value and the final row duplicates the
last). -/
theorem claim_C1_amended_thirteen_logs (hostname sd ed : String) (sid : Nat)
    (db : DB) (s : ScenarioClass)
    (hfind : db.scenarios.find? (fun r => r.scenario_id == sid) = some s)
    (v : Nat) (hsrv : s.server = some v) :
    (run_scenario hostname sid sd ed db).1.scenario_logs
        = db.scenario_logs ++ runLogs sid db.clock
      ∧ (runLogs sid db.clock).length = 13
      ∧ (runLogs sid db.clock).map (fun l => l.progress)
          = [0, 0, 10, 20, 30, 40, 50, 60, 70, 80, 90, 100, 100]
      ∧ ∀ l ∈ runLogs sid db.clock, l.scenario = sid := by
  rw [run_scenario_ok hostname sd ed sid db s hfind v hsrv]
  refine ⟨rfl, rfl, rfl, ?_⟩
  intro l hl
  simp only [runLogs, List.mem_cons, List.not_mem_nil, or_false] at hl
  rcases hl with rfl | rfl | rfl | rfl | rfl | rfl | rfl | rfl | rfl | rfl | rfl | rfl | rfl <;> rfl

/-- Witness for the amended claim C1 at a concrete store. -/
theorem claim_C1_amended_witness :
    (run_scenario "worker-1" 1 "2024-01-01" "2024-01-31" exampleDB).1.scenario_logs
        = exampleDB.scenario_logs ++ runLogs 1 exampleDB.clock
      ∧ (runLogs 1 exampleDB.clock).length = 13
      ∧ (runLogs 1 exampleDB.clock).map (fun l => l.progress)
          = [0, 0, 10, 20, 30, 40, 50, 60, 70, 80, 90, 100, 100]
      ∧ ∀ l ∈ runLogs 1 exampleDB.clock, l.scenario = 1 :=
  claim_C1_amended_thirteen_logs "worker-1" "2024-01-01" "2024-01-31" 1
    exampleDB exampleScenario (by rfl) 1 (by rfl)

/-- Claim C2: a successful save of an `ObjectTypeProperty` persists the
row with its `unit` field overwritten by the resolved value `u`, where `u`
is null when `unit_category` is null and otherwise is exactly the first
`UnitDefinition` flagged `is_base` for the unit type of the category (under
the queryset ordering), or null when no such definition exists; nothing
else of the row or the store changes, and re-saving the stored row leaves
the store — in particular its `unit` — unchanged. -/
theorem claim_C2_unit_base_resolution (db db2 : DB) (p : ObjectTypeProperty)
    (hsave : saveObjectTypeProperty db p = some db2) :
    ∃ u : Option Nat,
      db2 = { db with object_type_properties := upsertBy (fun r => r.object_type_property_id) db.object_type_properties { p with unit := u } }
      ∧ (p.unit_category = none → u = none)
      ∧ (∀ cid cat, p.unit_category = some cid →
          db.unit_categories.find? (fun c => c.unit_category_id == cid) = some cat →
          u = (firstBaseUnit db cat.unit_type).map (fun d => d.unit_definition_id))
      ∧ saveObjectTypeProperty db2 { p with unit := u } = some db2 := by
  unfold saveObjectTypeProperty at hsave
  split at hsave
  case h_1 hcat =>
    simp only [Option.some.injEq] at hsave
    refine ⟨none, hsave.symm, fun _ => rfl, ?_, ?_⟩
    · intro cid cat hc _
      rw [hcat] at hc
      cases hc
    · subst hsave
      unfold saveObjectTypeProperty
      simp [hcat, upsertBy_idem]
  case h_2 cid hcat =>
    split at hsave
    case h_1 hfindc =>
      simp at hsave
    case h_2 cat hfindc =>
      simp only [Option.some.injEq] at hsave
      refine ⟨(firstBaseUnit db cat.unit_type).map (fun d => d.unit_definition_id),
        hsave.symm, ?_, ?_, ?_⟩
      · intro hnone
        rw [hcat] at hnone
        cases hnone
      · intro cid2 cat2 hc hfind2
        rw [hcat] at hc
        injection hc with hc
        subst hc
        rw [hfindc] at hfind2
        injection hfind2 with hf
        subst hf
        rfl
      · subst hsave
        unfold saveObjectTypeProperty
        simp [hcat, hfindc, firstBaseUnit, upsertBy_idem]

/-- Witness for claim C2: saving a property of category Distance on
`exampleDB` stores unit 1 (metre), the base definition of unit type
Length, and re-saving changes nothing. -/
theorem claim_C2_witness :
    ∃ u : Option Nat,
      exampleSavedDB = { exampleDB with object_type_properties := upsertBy (fun r => r.object_type_property_id) exampleDB.object_type_properties { exampleProperty with unit := u } }
      ∧ (exampleProperty.unit_category = none → u = none)
      ∧ (∀ cid cat, exampleProperty.unit_category = some cid →
          exampleDB.unit_categories.find? (fun c => c.unit_category_id == cid) = some cat →
          u = (firstBaseUnit exampleDB cat.unit_type).map (fun d => d.unit_definition_id))
      ∧ saveObjectTypeProperty exampleSavedDB { exampleProperty with unit := u } = some exampleSavedDB :=
  claim_C2_unit_base_resolution exampleDB exampleSavedDB exampleProperty (by rfl)

/-- Claim C3: saving a link whose component row exists is rejected exactly
when another link of the same scenario (a different primary key) already
references a component with the same data source; consequently a store in
which every scenario has at most one linked component per data source
still has that property after any successful save. -/
theorem claim_C3_link_data_source_guard (db : DB) (l : ScenarioComponentLink)
    (ds : Nat) (hcomp : componentDataSource db l.component = some ds) :
    ((∀ db2, ¬ saveScenarioComponentLink db l = Except.ok db2)
        ↔ ∃ o ∈ db.scenario_component_links,
            o.scenario = l.scenario ∧ ¬ o.id = l.id
              ∧ componentDataSource db o.component = some ds)
      ∧ (linkConflictFree db →
          ∀ db2, saveScenarioComponentLink db l = Except.ok db2 →
            linkConflictFree db2) := by
  constructor
  · unfold saveScenarioComponentLink cleanScenarioComponentLink
    rw [hcomp]
    dsimp only
    by_cases hany : (db.scenario_component_links.any (fun o =>
        o.scenario == l.scenario && componentDataSource db o.component == some ds
          && o.id != l.id)) = true
    · rw [if_pos hany]
      constructor
      · intro _
        obtain ⟨o, ho, hb⟩ := List.any_eq_true.mp hany
        simp only [Bool.and_eq_true, beq_iff_eq, bne_iff_ne, ne_eq] at hb
        exact ⟨o, ho, hb.1.1, hb.2, hb.1.2⟩
      · intro _ db2 h
        cases h
    · rw [if_neg hany]
      constructor
      · intro hno
        exact absurd rfl (hno _)
      · rintro ⟨o, ho, h1, h2, h3⟩
        exact absurd (List.any_eq_true.mpr ⟨o, ho, by simp [h1, h2, h3]⟩) hany
  · intro hfree db2 hok
    unfold saveScenarioComponentLink cleanScenarioComponentLink at hok
    rw [hcomp] at hok
    dsimp only at hok
    by_cases hany : (db.scenario_component_links.any (fun o =>
        o.scenario == l.scenario && componentDataSource db o.component == some ds
          && o.id != l.id)) = true
    · rw [if_pos hany] at hok
      cases hok
    · rw [if_neg hany] at hok
      simp only [Except.ok.injEq] at hok
      subst hok
      have hnone : ∀ o ∈ db.scenario_component_links,
          ¬ (o.scenario == l.scenario
            && componentDataSource db o.component == some ds && o.id != l.id) = true :=
        fun o ho hb => hany (List.any_eq_true.mpr ⟨o, ho, hb⟩)
      intro o1 h1 o2 h2 hsc hds
      simp only [componentDataSource_update_links] at hds
      simp only [] at h1 h2
      rcases mem_upsertBy h1 with rfl | ⟨h1db, h1ne⟩
      · rcases mem_upsertBy h2 with rfl | ⟨h2db, h2ne⟩
        · rfl
        · have hcds2 : componentDataSource db o2.component = some ds := by
            rw [← hds, hcomp]
          refine absurd ?_ (hnone o2 h2db)
          simp [hsc, hcds2, h2ne]
      · rcases mem_upsertBy h2 with rfl | ⟨h2db, h2ne⟩
        · have hcds1 : componentDataSource db o1.component = some ds := by
            rw [hds, hcomp]
          refine absurd ?_ (hnone o1 h1db)
          simp [hsc, hcds1, h1ne]
        · exact hfree o1 h1db o2 h2db hsc hds

/-- Witness for claim C3: linking component 2 (data source 1) to scenario
1 of `exampleDB` is rejected, because link 1 already ties component 1
(also data source 1) to scenario 1. -/
theorem claim_C3_witness :
    ((∀ db2, ¬ saveScenarioComponentLink exampleDB ⟨2, 1, 2⟩ = Except.ok db2)
        ↔ ∃ o ∈ exampleDB.scenario_component_links,
            o.scenario = (⟨2, 1, 2⟩ : ScenarioComponentLink).scenario
              ∧ ¬ o.id = (⟨2, 1, 2⟩ : ScenarioComponentLink).id
              ∧ componentDataSource exampleDB o.component = some 1)
      ∧ (linkConflictFree exampleDB →
          ∀ db2, saveScenarioComponentLink exampleDB ⟨2, 1, 2⟩ = Except.ok db2 →
            linkConflictFree db2) :=
  claim_C3_link_data_source_guard exampleDB ⟨2, 1, 2⟩ 1 (by rfl)

/-- Claim C4: saving a `MainClass` row is rejected by the `pre_save`
validation exactly when the object type of the referenced instance differs
from the `object_type` of the row; when they agree the row is persisted.
A rejected save returns no new store, so nothing is persisted. -/
theorem claim_C4_mainclass_type_guard (db : DB) (m : MainClass)
    (inst : ObjectInstance)
    (hfind : db.object_instances.find?
      (fun i => i.object_instance_id == m.object_instance) = some inst) :
    (¬ inst.object_type = m.object_type →
        saveMainClass db m
          = Except.error "Object instance must belong to the selected object type.")
      ∧ (inst.object_type = m.object_type →
        saveMainClass db m
          = Except.ok { db with main_rows := upsertBy (fun r => r.data_set_id) db.main_rows m }) := by
  unfold saveMainClass validate_object_instance
  rw [hfind]
  by_cases h : inst.object_type = m.object_type
  · simp [h]
  · simp [h]

/-- Witness for claim C4: instance `W-001` of `exampleDB` has object type
1, so a fact row claiming object type 2 for it is rejected. -/
theorem claim_C4_witness :
    (¬ (1 : Nat) = 2 →
        saveMainClass exampleDB ⟨1, 1, 7, 2, 1, 1, none, none, none, none⟩
          = Except.error "Object instance must belong to the selected object type.")
      ∧ ((1 : Nat) = 2 →
        saveMainClass exampleDB ⟨1, 1, 7, 2, 1, 1, none, none, none, none⟩
          = Except.ok { exampleDB with main_rows := upsertBy (fun r => r.data_set_id) exampleDB.main_rows ⟨1, 1, 7, 2, 1, 1, none, none, none, none⟩ }) :=
  claim_C4_mainclass_type_guard exampleDB ⟨1, 1, 7, 2, 1, 1, none, none, none, none⟩
    ⟨1, 1, "W-001"⟩ (by rfl)

/-- Claim C5, counterexample: after running the task with worker host
identity `"celery@host-42"` on scenario 1 of `exampleDB`, the persisted
servers table is exactly as before and no server row carries the host
identity: the assignment `scenario.server.server_name = hostname` touches
only the in-memory object, since the server row is never saved. -/
theorem claim_C5_counterexample :
    (run_scenario "celery@host-42" 1 "2024-01-01" "2024-01-31" exampleDB).1.servers
        = exampleDB.servers
      ∧ ∀ srv ∈ (run_scenario "celery@host-42" 1 "2024-01-01" "2024-01-31"
          exampleDB).1.servers, ¬ srv.server_name = "celery@host-42" := by
  decide

/-- Claim C5 as amended: at the start of `run_scenario`, the status of the
scenario is set to STARTED and its start_date to the current time, and
both are persisted; the host identity of the executing worker is assigned
only to the in-memory server object and is not persisted — the servers
table is unchanged by the start phase. -/
theorem claim_C5_amended_start_phase (hostname : String) (sid : Nat) (db : DB)
    (s : ScenarioClass)
    (hfind : db.scenarios.find? (fun r => r.scenario_id == sid) = some s)
    (v : Nat) (hsrv : s.server = some v) :
    runStart hostname sid db =
      ({ db with scenarios := scenarioSave db.scenarios (startedRow s db.clock) },
       Except.ok (startedRow s db.clock))
      ∧ (runStart hostname sid db).1.servers = db.servers := by
  have h : runStart hostname sid db =
      ({ db with scenarios := scenarioSave db.scenarios (startedRow s db.clock) },
       Except.ok (startedRow s db.clock)) := by
    unfold runStart
    rw [hfind]
    simp only []
    rw [show ({ s with status := "STARTED" } : ScenarioClass).server = some v from hsrv]
    simp only [startedRow]
    rw [hsrv]
  exact ⟨h, by rw [h]⟩

/-- Witness for the amended claim C5 at a concrete store. -/
theorem claim_C5_amended_witness :
    runStart "worker-1" 1 exampleDB =
      ({ exampleDB with scenarios := scenarioSave exampleDB.scenarios (startedRow exampleScenario exampleDB.clock) },
       Except.ok (startedRow exampleScenario exampleDB.clock))
      ∧ (runStart "worker-1" 1 exampleDB).1.servers = exampleDB.servers :=
  claim_C5_amended_start_phase "worker-1" 1 exampleDB exampleScenario (by rfl) 1 (by rfl)

/-- Claim C6, counterexample: a complete run on scenario 1 of `exampleDB`
also rewrites the persisted `status` (PENDING to SUCCESS) and
`description` (empty to the date-range text) of the scenario, so the
update is not limited to `start_date` and `end_date`. -/
theorem claim_C6_counterexample :
    (run_scenario "worker-1" 1 "2024-01-01" "2024-01-31" exampleDB).1.scenarios.map
        (fun r => r.status) = ["SUCCESS", "PENDING"]
      ∧ exampleDB.scenarios.map (fun r => r.status) = ["PENDING", "PENDING"]
      ∧ (run_scenario "worker-1" 1 "2024-01-01" "2024-01-31" exampleDB).1.scenarios.map
          (fun r => r.description) = ["Calculated from 2024-01-01 to 2024-01-31", ""]
      ∧ exampleDB.scenarios.map (fun r => r.description) = ["", ""] := by
  decide

/-- Claim C6 as amended: a complete run changes nothing in the persistent
state except appending new `ScenarioLog` rows and rewriting exactly four
fields of the scenario row: `status`, `start_date`, `end_date` and
`description`.  Every other table is unchanged, scenario rows with a
different id are kept, and the rewritten row agrees with the loaded row on
every remaining field. -/
theorem claim_C6_amended_frame (hostname sd ed : String) (sid : Nat)
    (db : DB) (s : ScenarioClass)
    (hfind : db.scenarios.find? (fun r => r.scenario_id == sid) = some s)
    (v : Nat) (hsrv : s.server = some v) :
    (run_scenario hostname sid sd ed db).1.unit_systems = db.unit_systems
      ∧ (run_scenario hostname sid sd ed db).1.unit_types = db.unit_types
      ∧ (run_scenario hostname sid sd ed db).1.unit_definitions = db.unit_definitions
      ∧ (run_scenario hostname sid sd ed db).1.unit_categories = db.unit_categories
      ∧ (run_scenario hostname sid sd ed db).1.unit_system_category_definitions
          = db.unit_system_category_definitions
      ∧ (run_scenario hostname sid sd ed db).1.data_sources = db.data_sources
      ∧ (run_scenario hostname sid sd ed db).1.scenario_components = db.scenario_components
      ∧ (run_scenario hostname sid sd ed db).1.servers = db.servers
      ∧ (run_scenario hostname sid sd ed db).1.scenario_component_links
          = db.scenario_component_links
      ∧ (run_scenario hostname sid sd ed db).1.object_types = db.object_types
      ∧ (run_scenario hostname sid sd ed db).1.object_instances = db.object_instances
      ∧ (run_scenario hostname sid sd ed db).1.object_type_properties
          = db.object_type_properties
      ∧ (run_scenario hostname sid sd ed db).1.main_rows = db.main_rows
      ∧ (run_scenario hostname sid sd ed db).1.scenario_logs
          = db.scenario_logs ++ runLogs sid db.clock
      ∧ (run_scenario hostname sid sd ed db).1.scenarios
          = scenarioSave db.scenarios (finalScenarioRow s db.clock sd ed)
      ∧ (∀ r ∈ db.scenarios, ¬ r.scenario_id = s.scenario_id →
          r ∈ (run_scenario hostname sid sd ed db).1.scenarios)
      ∧ (finalScenarioRow s db.clock sd ed).scenario_id = s.scenario_id
      ∧ (finalScenarioRow s db.clock sd ed).scenario_name = s.scenario_name
      ∧ (finalScenarioRow s db.clock sd ed).task_id = s.task_id
      ∧ (finalScenarioRow s db.clock sd ed).server = s.server
      ∧ (finalScenarioRow s db.clock sd ed).is_approved = s.is_approved
      ∧ (finalScenarioRow s db.clock sd ed).created_by = s.created_by
      ∧ (finalScenarioRow s db.clock sd ed).created_date = s.created_date := by
  rw [run_scenario_ok hostname sd ed sid db s hfind v hsrv]
  refine ⟨rfl, rfl, rfl, rfl, rfl, rfl, rfl, rfl, rfl, rfl, rfl, rfl, rfl, rfl, rfl,
    ?_, rfl, rfl, rfl, rfl, rfl, rfl, rfl⟩
  intro r hr hne
  unfold scenarioSave
  refine List.mem_map.mpr ⟨r, hr, ?_⟩
  have hne2 : ¬ r.scenario_id = (finalScenarioRow s db.clock sd ed).scenario_id := by
    simpa [finalScenarioRow] using hne
  simp [hne2]

/-- Witness for the amended claim C6 at a concrete store: the frame of the
run on scenario 1 of `exampleDB`. -/
theorem claim_C6_amended_witness :
    (run_scenario "worker-1" 1 "2024-01-01" "2024-01-31" exampleDB).1.unit_systems = exampleDB.unit_systems
      ∧ (run_scenario "worker-1" 1 "2024-01-01" "2024-01-31" exampleDB).1.unit_types = exampleDB.unit_types
      ∧ (run_scenario "worker-1" 1 "2024-01-01" "2024-01-31" exampleDB).1.unit_definitions = exampleDB.unit_definitions
      ∧ (run_scenario "worker-1" 1 "2024-01-01" "2024-01-31" exampleDB).1.unit_categories = exampleDB.unit_categories
      ∧ (run_scenario "worker-1" 1 "2024-01-01" "2024-01-31" exampleDB).1.unit_system_category_definitions
          = exampleDB.unit_system_category_definitions
      ∧ (run_scenario "worker-1" 1 "2024-01-01" "2024-01-31" exampleDB).1.data_sources = exampleDB.data_sources
      ∧ (run_scenario "worker-1" 1 "2024-01-01" "2024-01-31" exampleDB).1.scenario_components = exampleDB.scenario_components
      ∧ (run_scenario "worker-1" 1 "2024-01-01" "2024-01-31" exampleDB).1.servers = exampleDB.servers
      ∧ (run_scenario "worker-1" 1 "2024-01-01" "2024-01-31" exampleDB).1.scenario_component_links
          = exampleDB.scenario_component_links
      ∧ (run_scenario "worker-1" 1 "2024-01-01" "2024-01-31" exampleDB).1.object_types = exampleDB.object_types
      ∧ (run_scenario "worker-1" 1 "2024-01-01" "2024-01-31" exampleDB).1.object_instances = exampleDB.object_instances
      ∧ (run_scenario "worker-1" 1 "2024-01-01" "2024-01-31" exampleDB).1.object_type_properties
          = exampleDB.object_type_properties
      ∧ (run_scenario "worker-1" 1 "2024-01-01" "2024-01-31" exampleDB).1.main_rows = exampleDB.main_rows
      ∧ (run_scenario "worker-1" 1 "2024-01-01" "2024-01-31" exampleDB).1.scenario_logs
          = exampleDB.scenario_logs ++ runLogs 1 exampleDB.clock
      ∧ (run_scenario "worker-1" 1 "2024-01-01" "2024-01-31" exampleDB).1.scenarios
          = scenarioSave exampleDB.scenarios (finalScenarioRow exampleScenario exampleDB.clock "2024-01-01" "2024-01-31")
      ∧ (∀ r ∈ exampleDB.scenarios, ¬ r.scenario_id = exampleScenario.scenario_id →
          r ∈ (run_scenario "worker-1" 1 "2024-01-01" "2024-01-31" exampleDB).1.scenarios)
      ∧ (finalScenarioRow exampleScenario exampleDB.clock "2024-01-01" "2024-01-31").scenario_id = exampleScenario.scenario_id
      ∧ (finalScenarioRow exampleScenario exampleDB.clock "2024-01-01" "2024-01-31").scenario_name = exampleScenario.scenario_name
      ∧ (finalScenarioRow exampleScenario exampleDB.clock "2024-01-01" "2024-01-31").task_id = exampleScenario.task_id
      ∧ (finalScenarioRow exampleScenario exampleDB.clock "2024-01-01" "2024-01-31").server = exampleScenario.server
      ∧ (finalScenarioRow exampleScenario exampleDB.clock "2024-01-01" "2024-01-31").is_approved = exampleScenario.is_approved
      ∧ (finalScenarioRow exampleScenario exampleDB.clock "2024-01-01" "2024-01-31").created_by = exampleScenario.created_by
      ∧ (finalScenarioRow exampleScenario exampleDB.clock "2024-01-01" "2024-01-31").created_date = exampleScenario.created_date :=
  claim_C6_amended_frame "worker-1" "2024-01-01" "2024-01-31" 1
    exampleDB exampleScenario (by rfl) 1 (by rfl)

/-- Claim C7: when the loop completes, the task persists the scenario with
status SUCCESS and a set end_date, writes a description containing both
requested date strings, and returns the record with status SUCCESS and the
scenario id it was invoked with. -/
theorem claim_C7_finishing_save (hostname sd ed : String) (sid : Nat)
    (db : DB) (s : ScenarioClass)
    (hfind : db.scenarios.find? (fun r => r.scenario_id == sid) = some s)
    (v : Nat) (hsrv : s.server = some v) :
    (run_scenario hostname sid sd ed db).2
        = Except.ok { status := "SUCCESS", scenario_id := sid }
      ∧ (run_scenario hostname sid sd ed db).1.scenarios
          = scenarioSave db.scenarios (finalScenarioRow s db.clock sd ed)
      ∧ (finalScenarioRow s db.clock sd ed).status = "SUCCESS"
      ∧ (finalScenarioRow s db.clock sd ed).end_date = some (db.clock + 55)
      ∧ (∃ a b, (finalScenarioRow s db.clock sd ed).description = a ++ sd ++ b)
      ∧ (∃ c, (finalScenarioRow s db.clock sd ed).description = c ++ ed) := by
  rw [run_scenario_ok hostname sd ed sid db s hfind v hsrv]
  refine ⟨rfl, rfl, rfl, rfl, ?_, ?_⟩
  · exact ⟨"Calculated from ", " to " ++ ed, (String.append_assoc _ _ _)⟩
  · exact ⟨"Calculated from " ++ sd ++ " to ", rfl⟩

/-- Witness for claim C7 at a concrete store. -/
theorem claim_C7_witness :
    (run_scenario "worker-1" 1 "2024-01-01" "2024-01-31" exampleDB).2
        = Except.ok { status := "SUCCESS", scenario_id := 1 }
      ∧ (run_scenario "worker-1" 1 "2024-01-01" "2024-01-31" exampleDB).1.scenarios
          = scenarioSave exampleDB.scenarios
              (finalScenarioRow exampleScenario exampleDB.clock "2024-01-01" "2024-01-31")
      ∧ (finalScenarioRow exampleScenario exampleDB.clock "2024-01-01" "2024-01-31").status = "SUCCESS"
      ∧ (finalScenarioRow exampleScenario exampleDB.clock "2024-01-01" "2024-01-31").end_date
          = some (exampleDB.clock + 55)
      ∧ (∃ a b, (finalScenarioRow exampleScenario exampleDB.clock "2024-01-01" "2024-01-31").description
          = a ++ "2024-01-01" ++ b)
      ∧ (∃ c, (finalScenarioRow exampleScenario exampleDB.clock "2024-01-01" "2024-01-31").description
          = c ++ "2024-01-31") :=
  claim_C7_finishing_save "worker-1" "2024-01-01" "2024-01-31" 1
    exampleDB exampleScenario (by rfl) 1 (by rfl)

/-- Claim C8: deleting a `UnitType` is rejected (PROTECT) whenever a
`UnitDefinition` or a `UnitCategory` still references it, and the store —
in particular the `UnitType` row — is unchanged by the rejected delete. -/
theorem claim_C8_unittype_protected (db : DB) (t : Nat)
    (hdep : (∃ d ∈ db.unit_definitions, d.unit_type = t)
      ∨ ∃ c ∈ db.unit_categories, c.unit_type = t) :
    deleteUnitType db t = Except.error "ProtectedError"
      ∧ dbAfterDeleteUnitType db t = db := by
  have hcond : (db.unit_definitions.any (fun d => d.unit_type == t)
      || db.unit_categories.any (fun c => c.unit_type == t)) = true := by
    rcases hdep with ⟨d, hd, hdt⟩ | ⟨c, hc, hct⟩
    · exact Bool.or_eq_true_iff.mpr
        (Or.inl (List.any_eq_true.mpr ⟨d, hd, by simp [hdt]⟩))
    · exact Bool.or_eq_true_iff.mpr
        (Or.inr (List.any_eq_true.mpr ⟨c, hc, by simp [hct]⟩))
  have herr : deleteUnitType db t = Except.error "ProtectedError" := by
    unfold deleteUnitType
    rw [if_pos hcond]
  refine ⟨herr, ?_⟩
  unfold dbAfterDeleteUnitType
  rw [herr]

/-- Witness for claim C8: unit type 1 of `exampleDB` has both a dependent
definition and a dependent category, so its delete is rejected and the
store is unchanged. -/
theorem claim_C8_witness :
    deleteUnitType exampleDB 1 = Except.error "ProtectedError"
      ∧ dbAfterDeleteUnitType exampleDB 1 = exampleDB :=
  claim_C8_unittype_protected exampleDB 1
    (Or.inl ⟨⟨1, "metre", 1, 1, 0, true, none, 3, 0, 0, none, none, none⟩, by decide, rfl⟩)

/-- Claim C9: deactivating a server removes it from the default
(active-only) listing while it stays in the all-servers listing with every
other field unchanged; activating it afterwards restores it to the default
listing. -/
theorem claim_C9_server_soft_delete (db : DB) (srv : ServersClass)
    (hs : srv ∈ db.servers) :
    (∀ r ∈ activeServers (deactivateServer db srv.server_id),
        ¬ r.server_id = srv.server_id)
      ∧ { srv with is_active := false } ∈ allServers (deactivateServer db srv.server_id)
      ∧ { srv with is_active := true }
          ∈ activeServers (activateServer (deactivateServer db srv.server_id) srv.server_id) := by
  refine ⟨?_, ?_, ?_⟩
  · intro r hr hid
    simp only [activeServers, deactivateServer, List.mem_filter, List.mem_map] at hr
    obtain ⟨⟨x, hx, hxr⟩, hact⟩ := hr
    by_cases hxs : x.server_id = srv.server_id
    · rw [if_pos (by simp [hxs])] at hxr
      rw [← hxr] at hact
      simp at hact
    · rw [if_neg (by simp [hxs])] at hxr
      rw [← hxr] at hid
      exact hxs hid
  · have hmem := List.mem_map_of_mem
      (fun s => if s.server_id == srv.server_id then { s with is_active := false } else s) hs
    simp only [allServers, deactivateServer]
    simpa using hmem
  · have h1 : ({ srv with is_active := false } : ServersClass)
        ∈ (deactivateServer db srv.server_id).servers := by
      have hmem := List.mem_map_of_mem
        (fun s => if s.server_id == srv.server_id then { s with is_active := false } else s) hs
      simpa [deactivateServer] using hmem
    have h2 : ({ srv with is_active := true } : ServersClass)
        ∈ (activateServer (deactivateServer db srv.server_id) srv.server_id).servers := by
      have hmem2 := List.mem_map_of_mem
        (fun s => if s.server_id == srv.server_id then { s with is_active := true } else s) h1
      simpa [activateServer] using hmem2
    simp only [activeServers]
    exact List.mem_filter.mpr ⟨h2, by simp⟩

/-- Witness for claim C9 on the single server row of `exampleDB`. -/
theorem claim_C9_witness :
    (∀ r ∈ activeServers (deactivateServer exampleDB exampleServer.server_id),
        ¬ r.server_id = exampleServer.server_id)
      ∧ { exampleServer with is_active := false }
          ∈ allServers (deactivateServer exampleDB exampleServer.server_id)
      ∧ { exampleServer with is_active := true }
          ∈ activeServers (activateServer (deactivateServer exampleDB exampleServer.server_id)
              exampleServer.server_id) :=
  claim_C9_server_soft_delete exampleDB exampleServer (by decide)

/-- Claim C10: on a scenario whose server reference is null, the attribute
assignment of the first step raises before any save, and the whole
persistent state — in particular status, start_date, end_date, description
and the log table — is exactly as before the invocation. -/
theorem claim_C10_null_server_faults (hostname sd ed : String) (sid : Nat)
    (db : DB) (s : ScenarioClass)
    (hfind : db.scenarios.find? (fun r => r.scenario_id == sid) = some s)
    (hnull : s.server = none) :
    run_scenario hostname sid sd ed db
      = (db, Except.error "AttributeError: NoneType object has no attribute server_name") := by
  unfold run_scenario runStart
  rw [hfind]
  simp only []
  rw [show ({ s with status := "STARTED" } : ScenarioClass).server = none from hnull]

/-- Witness for claim C10: scenario 2 of `exampleDB` has a null server;
invoking the task on it faults and leaves the store untouched. -/
theorem claim_C10_witness :
    run_scenario "worker-1" 2 "2024-01-01" "2024-01-31" exampleDB
      = (exampleDB, Except.error "AttributeError: NoneType object has no attribute server_name") :=
  claim_C10_null_server_faults "worker-1" "2024-01-01" "2024-01-31" 2
    exampleDB exampleScenarioNoServer (by rfl) (by rfl)
